import Mathlib

/-!
Shallow embedding of the AgentGuard EVM transaction firewall
(`src/firewall/limits.ts`, `src/firewall/allowlist.ts`, `src/firewall/simulator.ts`,
`src/firewall/index.ts`) together with theorems settling the specification claims.

Modelling conventions:
* TypeScript `bigint` values (wei amounts, gas) are `Int`.
* The current date string (the source derives it from the system clock via
  `new Date().toISOString().split('T')[0]`) is passed explicitly as a `today : String`
  argument to every operation that consults the clock.
* Rejection reasons and warnings are template strings in the source; they are
  modelled as inductive values carrying exactly the data interpolated into the
  template (their final rendering goes through `formatEther`/floating point,
  which is irrelevant to every claim).
* The viem `PublicClient` is modelled as an oracle (`ChainOracle`) giving the
  outcome of each RPC; every function that performs RPC also returns the list
  of RPC calls it issued, in order, so that claims about "no RPC call is made"
  are statable.
* JavaScript string operations (`slice`, `startsWith`, `length`, `includes`)
  are modelled over `String.toList`.
-/

namespace AgentGuard

/-- JavaScript `s.slice(a, b)` on strings (character-based). -/
def jsSlice (s : String) (a b : Nat) : String :=
  String.mk ((s.toList.drop a).take (b - a))

/-- JavaScript `s.startsWith(p)`. -/
def jsStartsWith (s p : String) : Bool :=
  p.toList.isPrefixOf s.toList

/-- JavaScript `s.length` (character count). -/
def jsLength (s : String) : Nat :=
  s.toList.length

/-- JavaScript `s.includes(p)` (substring containment). -/
def jsIncludes (s p : String) : Bool :=
  (List.range (s.toList.length + 1)).any fun i => p.toList.isPrefixOf (s.toList.drop i)

/-- JavaScript `s.toLowerCase()` (character-wise; the inputs are ASCII hex
addresses, selectors, and error messages). -/
def jsToLowerCase (s : String) : String :=
  String.mk (s.toList.map Char.toLower)

/-- JavaScript truthiness of an optional bigint (`undefined` and `0n` are falsy). -/
def truthyInt : Option Int → Bool
  | some v => v != 0
  | none => false

/-- JavaScript truthiness of an optional string (`undefined` and `''` are falsy). -/
def truthyStr : Option String → Bool
  | some s => s != ""
  | none => false

/-- Typed simulation error classification (§4.4); the source renders these as the
strings `Transaction would fail: insufficient funds`, `Transaction would revert`,
and `Simulation failed: <message>`. -/
inductive SimError where
  | insufficientFunds
  | wouldRevert
  | simulationError (message : String)
deriving DecidableEq, Repr

/-- Structured rejection reasons; each constructor carries the data the source
interpolates into the corresponding template string. -/
inductive Reason where
  | perTxExceeded (amount maxPerTx : Int)
  | dailyLimitExceeded (current amount limit : Int)
  | contractBlocked (address : String)
  | contractNotInAllowlist (address : String)
  | simulationFailed (error : Option SimError)
deriving DecidableEq, Repr

/-- Structured warnings; each constructor carries the data the source
interpolates into the corresponding warning string. -/
inductive Warning where
  | revertReasonInReturnData
  | panicInReturnData
  | highGasUsage (gas : Int)
  | couldNotEstimateGasUsage
  | checkBalanceAndGas
  | contractExecutionWouldFail
  | couldNotFetchGasPrice
  | couldNotEstimateGasUsingDefault
  | highRiskFunctionCalls
  | highGasEstimate (gas : Int)
  | zeroValueContractInteraction
  | noPayerAddress
  | suspiciousSelector (description : String)
  | unlimitedApproval
deriving DecidableEq, Repr

/-! ## SpendingLimits (`src/firewall/limits.ts`) -/

/-- State/configuration of a `SpendingLimits` instance: the two readonly caps plus
the mutable `dailySpend` / `lastResetDate` fields. -/
structure SpendingLimits where
  maxDaily : Int
  maxPerTx : Int
  dailySpend : Int
  lastResetDate : String
deriving DecidableEq, Repr

/-- Result of `SpendingLimits.check`. -/
structure SpendingCheckResult where
  allowed : Bool
  reason : Option Reason
  currentDailySpend : Int
  remainingDaily : Int
deriving DecidableEq, Repr

/-- `maybeResetDaily`: zero the counter when the stored date differs from today. -/
def SpendingLimits.maybeResetDaily (self : SpendingLimits) (today : String) : SpendingLimits :=
  if today ≠ self.lastResetDate then
    { self with dailySpend := 0, lastResetDate := today }
  else
    self

/-- `SpendingLimits.check(amountWei)`: boundary reset, then per-tx cap, then daily cap. -/
def SpendingLimits.check (self : SpendingLimits) (today : String) (amountWei : Int) :
    SpendingCheckResult × SpendingLimits :=
  let s := self.maybeResetDaily today
  if amountWei > s.maxPerTx then
    ({ allowed := false
       reason := some (Reason.perTxExceeded amountWei s.maxPerTx)
       currentDailySpend := s.dailySpend
       remainingDaily := if s.maxDaily > s.dailySpend then s.maxDaily - s.dailySpend else 0 }, s)
  else
    let projectedDaily := s.dailySpend + amountWei
    if projectedDaily > s.maxDaily then
      ({ allowed := false
         reason := some (Reason.dailyLimitExceeded s.dailySpend amountWei s.maxDaily)
         currentDailySpend := s.dailySpend
         remainingDaily := if s.maxDaily > s.dailySpend then s.maxDaily - s.dailySpend else 0 }, s)
    else
      ({ allowed := true
         reason := none
         currentDailySpend := s.dailySpend
         remainingDaily := s.maxDaily - projectedDaily }, s)

/-- `SpendingLimits.recordSpend(amountWei)`: boundary reset, then unconditional add. -/
def SpendingLimits.recordSpend (self : SpendingLimits) (today : String) (amountWei : Int) :
    SpendingLimits :=
  let s := self.maybeResetDaily today
  { s with dailySpend := s.dailySpend + amountWei }

/-- `SpendingLimits.resetDailySpend()`. -/
def SpendingLimits.resetDailySpend (self : SpendingLimits) (today : String) : SpendingLimits :=
  { self with dailySpend := 0, lastResetDate := today }

/-- Result of `SpendingLimits.getStatus`. -/
structure SpendStatus where
  dailySpend : Int
  dailyLimit : Int
  perTxLimit : Int
deriving DecidableEq, Repr

/-- `SpendingLimits.getStatus()`: boundary reset, then report. -/
def SpendingLimits.getStatus (self : SpendingLimits) (today : String) :
    SpendStatus × SpendingLimits :=
  let s := self.maybeResetDaily today
  ({ dailySpend := s.dailySpend, dailyLimit := s.maxDaily, perTxLimit := s.maxPerTx }, s)

/-! ## ContractAllowlist (`src/firewall/allowlist.ts`) -/

/-- Known malicious contracts, always blocked. -/
def KNOWN_MALICIOUS_CONTRACTS : List String :=
  ["0x0000000000000000000000000000000000000000"]

/-- Common safe system contracts on Base. -/
def SAFE_SYSTEM_CONTRACTS : List String :=
  [ "0x4200000000000000000000000000000000000006"
  , "0x833589fCD6eDb6E08f4c7C32D4f71b54bdA02913"
  , "0xd9aAEc86B65D86f6A7B5B1b0c42FFA531710b6CA"
  , "0x50c5725949A6F0c72E6C4a641F24049A917DB0Cb"
  , "0x2Ae3F1Ec7F1F5012CFEab0185bfc7aa3cf0DEc22"
  , "0x940181a94A35A4569E4529A3CDfB74e38FD98631" ]

/-- Classification status of `ContractCheckResult`. -/
inductive ContractStatus where
  | allowed
  | blocked
  | not_in_allowlist
  | system_safe
deriving DecidableEq, Repr

/-- Result of `ContractAllowlist.check`. -/
structure ContractCheckResult where
  allowed : Bool
  reason : Option Reason
  contractAddress : String
  status : ContractStatus
deriving DecidableEq, Repr

/-- Constructor input of `ContractAllowlist`. -/
structure AllowlistConfig where
  allowedContracts : Option (List String) := none
  blockedContracts : Option (List String) := none
  allowSystemContracts : Option Bool := none
deriving DecidableEq, Repr

/-- State of a `ContractAllowlist` instance (the sets are modelled as lists of
lowercased addresses; membership mirrors `Set.has`). -/
structure ContractAllowlist where
  allowlist : Option (List String)
  blocklist : List String
  systemContracts : List String
  allowSystemContracts : Bool
deriving DecidableEq, Repr

/-- The `ContractAllowlist` constructor. -/
def ContractAllowlist.ofConfig (config : AllowlistConfig) : ContractAllowlist :=
  { allowlist := config.allowedContracts.map (List.map jsToLowerCase)
    blocklist := (KNOWN_MALICIOUS_CONTRACTS ++ config.blockedContracts.getD []).map jsToLowerCase
    systemContracts := SAFE_SYSTEM_CONTRACTS.map jsToLowerCase
    allowSystemContracts := config.allowSystemContracts.getD true }

/-- `ContractAllowlist.check(contractAddress)`: blocklist first, then system
contracts, then the optional allowlist, else default-allow. -/
def ContractAllowlist.check (self : ContractAllowlist) (contractAddress : String) :
    ContractCheckResult :=
  let addrLower := jsToLowerCase contractAddress
  if self.blocklist.contains addrLower then
    { allowed := false
      reason := some (Reason.contractBlocked contractAddress)
      contractAddress := contractAddress
      status := ContractStatus.blocked }
  else if self.allowSystemContracts && self.systemContracts.contains addrLower then
    { allowed := true
      reason := none
      contractAddress := contractAddress
      status := ContractStatus.system_safe }
  else
    match self.allowlist with
    | some allowSet =>
      if allowSet.contains addrLower then
        { allowed := true
          reason := none
          contractAddress := contractAddress
          status := ContractStatus.allowed }
      else
        { allowed := false
          reason := some (Reason.contractNotInAllowlist contractAddress)
          contractAddress := contractAddress
          status := ContractStatus.not_in_allowlist }
    | none =>
      { allowed := true
        reason := none
        contractAddress := contractAddress
        status := ContractStatus.allowed }

/-- `ContractAllowlist.checkAll(contractAddresses)`. -/
def ContractAllowlist.checkAll (self : ContractAllowlist) (contractAddresses : List String) :
    List ContractCheckResult :=
  contractAddresses.map self.check

/-- `ContractAllowlist.addToBlocklist(contractAddress)`. -/
def ContractAllowlist.addToBlocklist (self : ContractAllowlist) (contractAddress : String) :
    ContractAllowlist :=
  { self with blocklist := self.blocklist ++ [jsToLowerCase contractAddress] }

/-- Result of `ContractAllowlist.getStatus`. -/
structure ContractsStatus where
  mode : String
  allowlistSize : Option Nat
  blocklistSize : Nat
deriving DecidableEq, Repr

/-- `ContractAllowlist.getStatus()` (set sizes are modelled as list lengths). -/
def ContractAllowlist.getStatus (self : ContractAllowlist) : ContractsStatus :=
  { mode := if self.allowlist.isSome then "allowlist" else "blocklist_only"
    allowlistSize := self.allowlist.map List.length
    blocklistSize := self.blocklist.length }

/-! ## TransactionSimulator (`src/firewall/simulator.ts`) -/

/-- A viem `TransactionRequest`, restricted to the fields the firewall reads. -/
structure TransactionRequest where
  «to» : Option String := none
  data : Option String := none
  value : Option Int := none
  gas : Option Int := none
  «from» : Option String := none
deriving DecidableEq, Repr

/-- Tag of one RPC invocation on the viem client. -/
inductive RpcCall where
  | ethCall
  | estimateGas
  | getGasPrice
deriving DecidableEq, Repr

/-- Oracle giving the outcome of each RPC: `callAttempt i` is what the `i`-th
invocation of `client.call` does (succeed with optional return data, or throw
with an error message); `estimateGasResult` and `gasPriceResult` similarly. -/
structure ChainOracle where
  callAttempt : Nat → Except String (Option String)
  estimateGasResult : Except String Int
  gasPriceResult : Except String Int

/-- Result of `TransactionSimulator.simulate`. -/
structure SimulationResult where
  success : Bool
  error : Option SimError := none
  gasUsed : Option Int := none
  returnData : Option String := none
  warnings : List Warning
deriving DecidableEq, Repr

/-- The retry loop body of `simulateWithRetry`: `remaining` attempts left, `i`
attempts already made, `lastError` the last caught error message. Returns the
surfaced outcome together with the total number of attempts invoked. The
inter-attempt delay (`sleep(100 * (i + 1))`) has no observable effect in this
model and is omitted. -/
def retryGo (attempts : Nat → Except String α) :
    Nat → Nat → Option String → Except String α × Nat
  | 0, i, lastError => (Except.error (lastError.getD "Unknown error"), i)
  | r + 1, i, _ =>
    match attempts i with
    | Except.ok v => (Except.ok v, i + 1)
    | Except.error e => retryGo attempts r (i + 1) (some e)

/-- `TransactionSimulator.simulateWithRetry(fn)`: up to `maxRetries` attempts,
surfacing the last error if every attempt fails. -/
def simulateWithRetry (maxRetries : Nat) (attempts : Nat → Except String α) :
    Except String α × Nat :=
  retryGo attempts maxRetries 0 none

/-- `TransactionSimulator.analyzeReturnDataForWarnings(returnData)`. -/
def analyzeReturnDataForWarnings (returnData : String) : List Warning :=
  if 2 < jsLength returnData then
    (if jsStartsWith returnData "0x08c379a0" then [Warning.revertReasonInReturnData] else []) ++
    (if jsStartsWith returnData "0x4e487b71" then [Warning.panicInReturnData] else [])
  else
    []

/-- `TransactionSimulator.simulate(tx)`: retried `eth_call`, return-data analysis,
optional gas estimation, and failure classification on a thrown error. -/
def TransactionSimulator.simulate (maxRetries : Nat) (ora : ChainOracle)
    (tx : TransactionRequest) : SimulationResult × List RpcCall :=
  match simulateWithRetry maxRetries ora.callAttempt with
  | (Except.ok dataRes, n) =>
    let callTrace := List.replicate n RpcCall.ethCall
    let warnings :=
      if truthyStr dataRes then analyzeReturnDataForWarnings (dataRes.getD "") else []
    if !truthyInt tx.gas && truthyStr tx.«to» && truthyStr tx.«from» then
      match ora.estimateGasResult with
      | Except.ok gasEstimate =>
        ({ success := true
           returnData := dataRes
           gasUsed := some gasEstimate
           warnings := warnings ++
             if gasEstimate > 500000 then [Warning.highGasUsage gasEstimate] else [] },
         callTrace ++ [RpcCall.estimateGas])
      | Except.error _ =>
        ({ success := true
           returnData := dataRes
           warnings := warnings ++ [Warning.couldNotEstimateGasUsage] },
         callTrace ++ [RpcCall.estimateGas])
    else
      ({ success := true, returnData := dataRes, warnings := warnings }, callTrace)
  | (Except.error errorMessage, n) =>
    let callTrace := List.replicate n RpcCall.ethCall
    if jsIncludes (jsToLowerCase errorMessage) "insufficient funds" then
      ({ success := false
         error := some SimError.insufficientFunds
         warnings := [Warning.checkBalanceAndGas] }, callTrace)
    else if jsIncludes (jsToLowerCase errorMessage) "revert" then
      ({ success := false
         error := some SimError.wouldRevert
         warnings := [Warning.contractExecutionWouldFail] }, callTrace)
    else
      ({ success := false
         error := some (SimError.simulationError errorMessage)
         warnings := [] }, callTrace)

/-- High-risk function selectors checked by `isHighRiskTransaction`. -/
def HIGH_RISK_SELECTORS : List String :=
  ["0x095ea7b3", "0xa22cb465", "0x2e1a7d4d", "0x3ccfd60b"]

/-- `TransactionSimulator.isHighRiskTransaction(data)`. -/
def isHighRiskTransaction (data : String) : Bool :=
  HIGH_RISK_SELECTORS.contains (jsToLowerCase (jsSlice data 0 10))

/-- Result of `TransactionSimulator.estimateSpend`. -/
structure SpendEstimate where
  estimatedSpend : Int
  gasPrice : Int
  warnings : List Warning
deriving DecidableEq, Repr

/-- `TransactionSimulator.estimateSpend(tx, payer)`: gas price (with a 1 gwei
fallback), gas estimate (with defaults on failure), `value + gasPrice * gas`,
and advisory warnings. The outer catch-all fallback of the source can only fire
on a thrown non-RPC error and is unreachable in this model. -/
def TransactionSimulator.estimateSpend (ora : ChainOracle) (tx : TransactionRequest)
    (_payerAddress : String) : SpendEstimate × List RpcCall :=
  let gpW : Int × List Warning :=
    match ora.gasPriceResult with
    | Except.ok p => (p, [])
    | Except.error _ => (1000000000, [Warning.couldNotFetchGasPrice])
  let gasPrice := gpW.1
  let geW : Int × List Warning × List RpcCall :=
    if !truthyInt tx.gas && truthyStr tx.«to» && truthyStr tx.«from» then
      match ora.estimateGasResult with
      | Except.ok g => (g, [], [RpcCall.estimateGas])
      | Except.error _ =>
        ((if truthyStr tx.data && tx.data != some "0x" then 100000 else 21000),
         [Warning.couldNotEstimateGasUsingDefault], [RpcCall.estimateGas])
    else
      ((if truthyInt tx.gas then tx.gas.getD 0 else 21000), [], [])
  let gasEstimate := geW.1
  let gasCost := gasPrice * gasEstimate
  let value := tx.value.getD 0
  let estimatedSpend := value + gasCost
  let wHighRisk :=
    if truthyStr tx.data && isHighRiskTransaction (tx.data.getD "") then
      [Warning.highRiskFunctionCalls]
    else []
  let wHighGas := if gasEstimate > 500000 then [Warning.highGasEstimate gasEstimate] else []
  let wZeroValue :=
    if value == 0 && truthyStr tx.data && tx.data != some "0x" then
      [Warning.zeroValueContractInteraction]
    else []
  ({ estimatedSpend := estimatedSpend
     gasPrice := gasPrice
     warnings := gpW.2 ++ geW.2.1 ++ wHighRisk ++ wHighGas ++ wZeroValue },
   [RpcCall.getGasPrice] ++ geW.2.2)

/-- `TransactionSimulator.extractContractAddresses(tx)`. -/
def TransactionSimulator.extractContractAddresses (tx : TransactionRequest) : List String :=
  if truthyStr tx.«to» then [tx.«to».getD ""] else []

/-! ## TransactionFirewall (`src/firewall/index.ts`) -/

/-- Constructor input of `TransactionFirewall` (`rpcUrl`/`chain` select the
network endpoint and have no observable effect in this model). -/
structure FirewallConfig where
  maxDailySpend : Int
  maxPerTxSpend : Int
  allowedContracts : Option (List String) := none
  blockedContracts : Option (List String) := none
  requireSimulation : Option Bool := none
  payerAddress : Option String := none

/-- Result of `TransactionFirewall.check`. -/
structure FirewallResult where
  allowed : Bool
  reason : Option Reason := none
  warnings : Option (List Warning) := none
  simulationResult : Option SimulationResult := none
  contractsChecked : Option (List ContractCheckResult) := none
  estimatedSpend : Option Int := none
deriving DecidableEq, Repr

/-- State of a `TransactionFirewall` instance. -/
structure TransactionFirewall where
  limits : SpendingLimits
  allowlist : ContractAllowlist
  requireSimulation : Bool
  payerAddress : Option String
  maxRetries : Nat

/-- The `TransactionFirewall` constructor. The embedded simulator is created
without a `maxRetries` entry, so `maxRetries || 2` yields 2; the embedded
allowlist is created without an `allowSystemContracts` entry. -/
def TransactionFirewall.ofConfig (today : String) (config : FirewallConfig) :
    TransactionFirewall :=
  { limits :=
      { maxDaily := config.maxDailySpend
        maxPerTx := config.maxPerTxSpend
        dailySpend := 0
        lastResetDate := today }
    allowlist := ContractAllowlist.ofConfig
      { allowedContracts := config.allowedContracts
        blockedContracts := config.blockedContracts
        allowSystemContracts := none }
    requireSimulation := config.requireSimulation.getD true
    payerAddress := config.payerAddress
    maxRetries := 2 }

/-- The suspicious-selector table of `TransactionFirewall.checkCalldata`. -/
def SUSPICIOUS_SELECTORS : List (String × String) :=
  [ ("0x095ea7b3", "approve - check spender address carefully")
  , ("0xa22cb465", "setApprovalForAll - grants full NFT access")
  , ("0x42842e0e", "safeTransferFrom (NFT)")
  , ("0x23b872dd", "transferFrom - ensure authorized") ]

/-- `TransactionFirewall.checkCalldata(data)`: selector table lookup plus the
unlimited-approval (all-`0xff` amount slot) check. -/
def TransactionFirewall.checkCalldata (data : String) : List Warning :=
  let selector := jsToLowerCase (jsSlice data 0 10)
  let selectorWarnings :=
    match SUSPICIOUS_SELECTORS.lookup selector with
    | some description => [Warning.suspiciousSelector description]
    | none => []
  let approvalWarnings :=
    if selector == "0x095ea7b3" && 138 ≤ jsLength data then
      if jsSlice data 74 138 == String.mk (List.replicate 64 'f') then
        [Warning.unlimitedApproval]
      else []
    else []
  selectorWarnings ++ approvalWarnings

/-- Steps 4 and 5 of `TransactionFirewall.check`: calldata scan and the final
accepted decision. -/
def TransactionFirewall.finishCheck (tx : TransactionRequest)
    (contractChecks : List ContractCheckResult) (estimatedSpend : Option Int)
    (simulationResult : Option SimulationResult) (warnings : List Warning)
    (limits : SpendingLimits) (trace : List RpcCall) :
    FirewallResult × SpendingLimits × List RpcCall :=
  let warnings := warnings ++
    (if truthyStr tx.data then TransactionFirewall.checkCalldata (tx.data.getD "") else [])
  ({ allowed := true
     simulationResult := simulationResult
     contractsChecked := some contractChecks
     estimatedSpend := estimatedSpend
     warnings := if warnings.length > 0 then some warnings else none },
   limits, trace)

/-- Step 3 of `TransactionFirewall.check`: the optional simulation stage. -/
def TransactionFirewall.checkSimulation (fw : TransactionFirewall) (ora : ChainOracle)
    (tx : TransactionRequest) (contractChecks : List ContractCheckResult)
    (estimatedSpend : Option Int) (warnings : List Warning)
    (limits : SpendingLimits) (trace : List RpcCall) :
    FirewallResult × SpendingLimits × List RpcCall :=
  if fw.requireSimulation then
    let simOut := TransactionSimulator.simulate fw.maxRetries ora tx
    let simulationResult := simOut.1
    if !simulationResult.success then
      ({ allowed := false
         reason := some (Reason.simulationFailed simulationResult.error)
         simulationResult := some simulationResult
         contractsChecked := some contractChecks
         estimatedSpend := estimatedSpend
         warnings := some (warnings ++ simulationResult.warnings) },
       limits, trace ++ simOut.2)
    else
      TransactionFirewall.finishCheck tx contractChecks estimatedSpend
        (some simulationResult) (warnings ++ simulationResult.warnings) limits
        (trace ++ simOut.2)
  else
    TransactionFirewall.finishCheck tx contractChecks estimatedSpend none warnings limits trace

/-- Steps 2 to 5 of `TransactionFirewall.check` (everything after the contract
classification stage): spend estimation and the ledger check when a payer is
configured, then simulation and the calldata scan. -/
def TransactionFirewall.checkRest (fw : TransactionFirewall) (today : String)
    (ora : ChainOracle) (tx : TransactionRequest)
    (contractChecks : List ContractCheckResult) :
    FirewallResult × SpendingLimits × List RpcCall :=
  match fw.payerAddress with
  | some payerAddress =>
    let estOut := TransactionSimulator.estimateSpend ora tx payerAddress
    let estimatedSpend := estOut.1.estimatedSpend
    let warnings := estOut.1.warnings
    let limitOut := fw.limits.check today estimatedSpend
    if !limitOut.1.allowed then
      ({ allowed := false
         reason := limitOut.1.reason
         contractsChecked := some contractChecks
         estimatedSpend := some estimatedSpend
         warnings := some warnings },
       limitOut.2, estOut.2)
    else
      TransactionFirewall.checkSimulation fw ora tx contractChecks
        (some estimatedSpend) warnings limitOut.2 estOut.2
  | none =>
    TransactionFirewall.checkSimulation fw ora tx contractChecks
      none [Warning.noPayerAddress] fw.limits []

/-- `TransactionFirewall.check(tx)`: contract classification first, with a
short-circuit rejection on the first disallowed contract, then the remaining
stages. Alongside the decision it returns the updated ledger state and the
trace of RPC calls issued. -/
def TransactionFirewall.check (fw : TransactionFirewall) (today : String)
    (ora : ChainOracle) (tx : TransactionRequest) :
    FirewallResult × SpendingLimits × List RpcCall :=
  let contractAddresses := TransactionSimulator.extractContractAddresses tx
  let contractChecks := fw.allowlist.checkAll contractAddresses
  match contractChecks.find? (fun c => !c.allowed) with
  | some blockedContract =>
    ({ allowed := false
       reason := blockedContract.reason
       contractsChecked := some contractChecks
       warnings := some [] },
     fw.limits, [])
  | none => TransactionFirewall.checkRest fw today ora tx contractChecks

/-- `TransactionFirewall.recordSpend(amountWei)`. -/
def TransactionFirewall.recordSpend (fw : TransactionFirewall) (today : String)
    (amountWei : Int) : TransactionFirewall :=
  { fw with limits := fw.limits.recordSpend today amountWei }

/-- Result of `TransactionFirewall.getStatus`. -/
structure FirewallSpendingStatus where
  dailySpend : Int
  dailyLimit : Int
  perTxLimit : Int
  remainingDaily : Int
deriving DecidableEq, Repr

/-- Result of `TransactionFirewall.getStatus`. -/
structure FirewallStatus where
  spending : FirewallSpendingStatus
  contracts : ContractsStatus
  requireSimulation : Bool
deriving DecidableEq, Repr

/-- `TransactionFirewall.getStatus()`: `remainingDaily` is the unclamped
difference `dailyLimit - dailySpend`. -/
def TransactionFirewall.getStatus (fw : TransactionFirewall) (today : String) :
    FirewallStatus × SpendingLimits :=
  let spendOut := fw.limits.getStatus today
  let contractStatus := fw.allowlist.getStatus
  ({ spending :=
      { dailySpend := spendOut.1.dailySpend
        dailyLimit := spendOut.1.dailyLimit
        perTxLimit := spendOut.1.perTxLimit
        remainingDaily := spendOut.1.dailyLimit - spendOut.1.dailySpend }
     contracts := contractStatus
     requireSimulation := fw.requireSimulation },
   spendOut.2)

/-- `TransactionFirewall.getRemainingDaily()`: unclamped difference. -/
def TransactionFirewall.getRemainingDaily (fw : TransactionFirewall) (today : String) :
    Int × SpendingLimits :=
  let statusOut := fw.limits.getStatus today
  (statusOut.1.dailyLimit - statusOut.1.dailySpend, statusOut.2)

/-! ## Guarded-spend driver, hex encoding, and concrete scenarios -/

/-- Driver folding a sequence of guarded spends: each amount is recorded only
when the corresponding `check` (run on the same ledger state and date) allows
it, matching the caller contract of §4.1. -/
def guardedRecordAll (steps : List (String × Int)) (s : SpendingLimits) : SpendingLimits :=
  match steps with
  | [] => s
  | (day, a) :: rest =>
    guardedRecordAll rest (if (s.check day a).1.allowed then s.recordSpend day a else s)

/-- Concrete firewall configuration blocking one contract, for the claim C4
witness. -/
def fwBlocked : TransactionFirewall :=
  TransactionFirewall.ofConfig "2026-01-01"
    { maxDailySpend := 10000000000000000000
      maxPerTxSpend := 1000000000000000000
      blockedContracts := some ["0xbad0000000000000000000000000000000000bad"]
      payerAddress := some "0x742d35cc6634c0532925a3b8d23c5d3ce87cdd4b" }

/-- Benign oracle used by concrete scenarios: every RPC succeeds. -/
def oracleOk : ChainOracle :=
  { callAttempt := fun _ => Except.ok (some "0x")
    estimateGasResult := Except.ok 21000
    gasPriceResult := Except.ok 1000000000 }

/-- Oracle whose read-only call succeeds but returns a revert-reason payload. -/
def oracleRevertData : ChainOracle :=
  { callAttempt := fun _ => Except.ok (some "0x08c379a0aa")
    estimateGasResult := Except.ok 21000
    gasPriceResult := Except.ok 1000000000 }

/-- Concrete firewall from the §8 scenario: 10 ETH period cap, 1 ETH per-tx cap,
payer configured, simulation required by default. -/
def fwCaps : TransactionFirewall :=
  TransactionFirewall.ofConfig "2026-01-01"
    { maxDailySpend := 10000000000000000000
      maxPerTxSpend := 1000000000000000000
      payerAddress := some "0x742d35cc6634c0532925a3b8d23c5d3ce87cdd4b" }

/-- A plain 2 ETH transfer to an allowed destination. -/
def txTwoEth : TransactionRequest :=
  { «to» := some "0x1234567890123456789012345678901234567890"
    value := some 2000000000000000000
    «from» := some "0x742d35cc6634c0532925a3b8d23c5d3ce87cdd4b" }

/-- Lowercase hex rendering of one byte (two hex digits). -/
def byteToHexChars (b : Nat) : List Char :=
  [Nat.digitChar (b / 16 % 16), Nat.digitChar (b % 16)]

/-- The canonical lowercase `0x`-prefixed hex string of a byte sequence: the
encoding viem produces for calldata. -/
def hexOfBytes (bytes : List Nat) : String :=
  String.mk ('0' :: 'x' :: (bytes.map byteToHexChars).flatten)

/-! ## Helper lemmas -/

theorem maybeResetDaily_maxDaily (self : SpendingLimits) (today : String) :
    (self.maybeResetDaily today).maxDaily = self.maxDaily := by
  unfold SpendingLimits.maybeResetDaily
  split <;> rfl

theorem maybeResetDaily_maxPerTx (self : SpendingLimits) (today : String) :
    (self.maybeResetDaily today).maxPerTx = self.maxPerTx := by
  unfold SpendingLimits.maybeResetDaily
  split <;> rfl

theorem maybeResetDaily_lastResetDate (self : SpendingLimits) (today : String) :
    (self.maybeResetDaily today).lastResetDate = today := by
  unfold SpendingLimits.maybeResetDaily
  split <;> simp_all

/-! ## Claim theorems -/

/-- Claim C1: for every ledger state and amount, `check` first applies the
period-boundary reset; it rejects with a reason naming the per-transaction cap
whenever the amount exceeds `maxPerTx`, independently of the current period
spend; otherwise it rejects with a reason citing the current spend, the
attempted amount, and the period cap whenever `dailySpend + amount` exceeds
`maxDaily`; otherwise it allows with `remainingDaily` equal to the period cap
minus the hypothetically applied spend. -/
theorem spend_check_stages (self : SpendingLimits) (today : String) (a : Int) :
    (self.check today a).2 = self.maybeResetDaily today ∧
    (a > self.maxPerTx →
      (self.check today a).1.allowed = false ∧
      (self.check today a).1.reason = some (Reason.perTxExceeded a self.maxPerTx)) ∧
    (a ≤ self.maxPerTx → (self.maybeResetDaily today).dailySpend + a > self.maxDaily →
      (self.check today a).1.allowed = false ∧
      (self.check today a).1.reason =
        some (Reason.dailyLimitExceeded (self.maybeResetDaily today).dailySpend a self.maxDaily)) ∧
    (a ≤ self.maxPerTx → (self.maybeResetDaily today).dailySpend + a ≤ self.maxDaily →
      (self.check today a).1.allowed = true ∧
      (self.check today a).1.reason = none ∧
      (self.check today a).1.remainingDaily =
        self.maxDaily - ((self.maybeResetDaily today).dailySpend + a)) := by
  simp only [SpendingLimits.check, maybeResetDaily_maxDaily, maybeResetDaily_maxPerTx]
  split_ifs with h1 h2 <;>
    refine ⟨rfl, ?_, ?_, ?_⟩ <;> intros <;> simp_all <;> omega

/-- Witness for `spend_check_stages` at a concrete cap configuration. -/
theorem spend_check_stages_witness :
    (({ maxDaily := 10, maxPerTx := 1, dailySpend := 0, lastResetDate := "2026-01-01" } :
        SpendingLimits).check "2026-01-01" 2).1.allowed = false := by
  have h := spend_check_stages
    { maxDaily := 10, maxPerTx := 1, dailySpend := 0, lastResetDate := "2026-01-01" }
    "2026-01-01" 2
  exact (h.2.1 (by decide)).1

/-- Claim C2 counterexample: `recordSpend` never rejects and adds
unconditionally, so a single `recordSpend(20)` on a fresh ledger with period cap
10 leaves `dailySpend = 20 > maxDaily`, violating the claimed invariant
`periodSpend ≤ periodCap` after a successful `recordSpend`. -/
theorem recordSpend_breaks_cap_invariant :
    (({ maxDaily := 10, maxPerTx := 5, dailySpend := 0, lastResetDate := "2026-01-01" } :
        SpendingLimits).recordSpend "2026-01-01" 20).dailySpend = 20 ∧
    ¬ (({ maxDaily := 10, maxPerTx := 5, dailySpend := 0, lastResetDate := "2026-01-01" } :
        SpendingLimits).recordSpend "2026-01-01" 20).dailySpend ≤
      (({ maxDaily := 10, maxPerTx := 5, dailySpend := 0, lastResetDate := "2026-01-01" } :
        SpendingLimits).recordSpend "2026-01-01" 20).maxDaily := by
  constructor <;> decide



theorem recordSpend_maxDaily (s : SpendingLimits) (day : String) (a : Int) :
    (s.recordSpend day a).maxDaily = s.maxDaily := by
  unfold SpendingLimits.recordSpend
  rw [maybeResetDaily_maxDaily]

theorem recordSpend_dailySpend (s : SpendingLimits) (day : String) (a : Int) :
    (s.recordSpend day a).dailySpend = (s.maybeResetDaily day).dailySpend + a := by
  unfold SpendingLimits.recordSpend
  rfl

theorem check_allowed_bounds (s : SpendingLimits) (day : String) (a : Int)
    (hallow : (s.check day a).1.allowed = true) :
    (s.maybeResetDaily day).dailySpend + a ≤ s.maxDaily := by
  simp only [SpendingLimits.check, maybeResetDaily_maxDaily, maybeResetDaily_maxPerTx] at hallow
  split_ifs at hallow
  simp_all

theorem guardedStep_le (s : SpendingLimits) (day : String) (a : Int)
    (hallow : (s.check day a).1.allowed = true) :
    (s.recordSpend day a).dailySpend ≤ s.maxDaily := by
  rw [recordSpend_dailySpend]
  exact check_allowed_bounds s day a hallow

/-- Claim C2 (amended): for every sequence of spends in which each
`recordSpend` is guarded by a passing `check` of the same amount on the same
date, `dailySpend ≤ maxDaily` holds after every step, provided the cap is
non-negative. -/
theorem guarded_recordSpend_invariant (steps : List (String × Int))
    (s : SpendingLimits) (hcap : 0 ≤ s.maxDaily) (hs : s.dailySpend ≤ s.maxDaily) :
    (guardedRecordAll steps s).dailySpend ≤ (guardedRecordAll steps s).maxDaily := by
  induction steps generalizing s with
  | nil => simpa [guardedRecordAll] using hs
  | cons step rest ih =>
    obtain ⟨day, a⟩ := step
    simp only [guardedRecordAll]
    by_cases hallow : (s.check day a).1.allowed = true
    · rw [if_pos hallow]
      exact ih (s.recordSpend day a)
        (by rw [recordSpend_maxDaily]; exact hcap)
        (by rw [recordSpend_maxDaily]; exact guardedStep_le s day a hallow)
    · rw [if_neg hallow]
      exact ih s hcap hs

/-- Witness for `guarded_recordSpend_invariant` on a concrete two-step history. -/
theorem guarded_recordSpend_invariant_witness :
    (guardedRecordAll [("2026-01-01", 4), ("2026-01-01", 9)]
      { maxDaily := 10, maxPerTx := 5, dailySpend := 0, lastResetDate := "2026-01-01" }).dailySpend ≤
    (guardedRecordAll [("2026-01-01", 4), ("2026-01-01", 9)]
      { maxDaily := 10, maxPerTx := 5, dailySpend := 0, lastResetDate := "2026-01-01" }).maxDaily :=
  guarded_recordSpend_invariant _ _ (by decide) (by decide)

/-- Claim C3: classification follows the fixed precedence on the lowercased
address: block-set membership yields `blocked` with `allowed = false` regardless
of every other list; otherwise honored system-safe membership yields
`system_safe` with `allowed = true`; otherwise allow-list mode consults the
allow set (membership yields `allowed`, absence yields `not_in_allowlist`), and
default-allow mode yields `allowed`. -/
theorem classify_precedence (al : ContractAllowlist) (addr : String) :
    (al.blocklist.contains (jsToLowerCase addr) = true →
      (al.check addr).status = ContractStatus.blocked ∧ (al.check addr).allowed = false) ∧
    (al.blocklist.contains (jsToLowerCase addr) = false →
      al.allowSystemContracts = true → al.systemContracts.contains (jsToLowerCase addr) = true →
      (al.check addr).status = ContractStatus.system_safe ∧ (al.check addr).allowed = true) ∧
    (al.blocklist.contains (jsToLowerCase addr) = false →
      ¬ (al.allowSystemContracts = true ∧
         al.systemContracts.contains (jsToLowerCase addr) = true) →
      ∀ allowSet, al.allowlist = some allowSet →
        (allowSet.contains (jsToLowerCase addr) = true →
          (al.check addr).status = ContractStatus.allowed ∧ (al.check addr).allowed = true) ∧
        (allowSet.contains (jsToLowerCase addr) = false →
          (al.check addr).status = ContractStatus.not_in_allowlist ∧
          (al.check addr).allowed = false)) ∧
    (al.blocklist.contains (jsToLowerCase addr) = false →
      ¬ (al.allowSystemContracts = true ∧
         al.systemContracts.contains (jsToLowerCase addr) = true) →
      al.allowlist = none →
      (al.check addr).status = ContractStatus.allowed ∧ (al.check addr).allowed = true) := by
  refine ⟨?_, ?_, ?_, ?_⟩
  · intro hb
    simp_all [ContractAllowlist.check]
  · intro hb hsysOn hsysMem
    simp_all [ContractAllowlist.check]
  · intro hb hsys allowSet hal
    by_cases hA : al.allowSystemContracts = true
    · have hB : al.systemContracts.contains (jsToLowerCase addr) = false := by
        cases hB2 : al.systemContracts.contains (jsToLowerCase addr)
        · rfl
        · exact absurd ⟨hA, hB2⟩ hsys
      constructor <;> intro hmem <;> simp_all [ContractAllowlist.check]
    · constructor <;> intro hmem <;> simp_all [ContractAllowlist.check]
  · intro hb hsys hal
    by_cases hA : al.allowSystemContracts = true
    · have hB : al.systemContracts.contains (jsToLowerCase addr) = false := by
        cases hB2 : al.systemContracts.contains (jsToLowerCase addr)
        · rfl
        · exact absurd ⟨hA, hB2⟩ hsys
      simp_all [ContractAllowlist.check]
    · simp_all [ContractAllowlist.check]

/-- Witness for `classify_precedence`: an address present in the block set, the
allow set, and the system-safe set at once is still classified `blocked`. -/
theorem classify_precedence_witness :
    ((ContractAllowlist.ofConfig
      { allowedContracts := some ["0x4200000000000000000000000000000000000006"]
        blockedContracts := some ["0x4200000000000000000000000000000000000006"] }).check
      "0x4200000000000000000000000000000000000006").status = ContractStatus.blocked :=
  ((classify_precedence _ _).1 (by decide)).1

/-- Claim C9: `getRemainingDaily()` and `getStatus().spending.remainingDaily`
return exactly `dailyLimit - dailySpend` with no clamping at zero; since
`recordSpend` adds unconditionally, a recorded spend above the cap makes these
accessors negative. -/
theorem remaining_daily_unclamped (fw : TransactionFirewall) (today : String)
    (hsame : fw.limits.lastResetDate = today) :
    (fw.getRemainingDaily today).1 = fw.limits.maxDaily - fw.limits.dailySpend ∧
    (fw.getStatus today).1.spending.remainingDaily =
      fw.limits.maxDaily - fw.limits.dailySpend ∧
    (fw.limits.maxDaily < fw.limits.dailySpend → (fw.getRemainingDaily today).1 < 0) ∧
    (∀ a : Int, ((fw.recordSpend today a).limits).dailySpend = fw.limits.dailySpend + a) := by
  have hreset : fw.limits.maybeResetDaily today = fw.limits := by
    unfold SpendingLimits.maybeResetDaily
    simp [hsame]
  refine ⟨?_, ?_, ?_, ?_⟩
  · simp [TransactionFirewall.getRemainingDaily, SpendingLimits.getStatus, hreset]
  · simp [TransactionFirewall.getStatus, SpendingLimits.getStatus, hreset]
  · intro hover
    simp only [TransactionFirewall.getRemainingDaily, SpendingLimits.getStatus, hreset]
    omega
  · intro a
    simp [TransactionFirewall.recordSpend, SpendingLimits.recordSpend, hreset]

/-- Witness for `remaining_daily_unclamped`: after recording 15 against a cap of
10, the public accessor reports -5. -/
theorem remaining_daily_unclamped_witness :
    (({ limits := { maxDaily := 10, maxPerTx := 1, dailySpend := 15,
                    lastResetDate := "2026-01-01" }
        allowlist := ContractAllowlist.ofConfig {}
        requireSimulation := true
        payerAddress := none
        maxRetries := 2 } : TransactionFirewall).getRemainingDaily "2026-01-01").1 < 0 :=
  (remaining_daily_unclamped _ "2026-01-01" rfl).2.2.1 (by decide)

/-- Claim C4: whenever some destination classifies as not allowed, the
pipeline's `check` returns a rejected decision carrying that classification's
reason, the ledger state is untouched (no ledger check), and the RPC trace is
empty (no spend estimate and no simulation call): all later stages are
skipped. -/
theorem firewall_blocked_short_circuit (fw : TransactionFirewall) (today : String)
    (ora : ChainOracle) (tx : TransactionRequest) (c : ContractCheckResult)
    (h : (fw.allowlist.checkAll (TransactionSimulator.extractContractAddresses tx)).find?
      (fun r => !r.allowed) = some c) :
    fw.check today ora tx =
      ({ allowed := false
         reason := c.reason
         contractsChecked :=
           some (fw.allowlist.checkAll (TransactionSimulator.extractContractAddresses tx))
         warnings := some [] },
       fw.limits, []) := by
  simp only [TransactionFirewall.check, h]



/-- Witness for `firewall_blocked_short_circuit`: a transfer to the blocked
contract is rejected with the blocked reason and an empty RPC trace. -/
theorem firewall_blocked_short_circuit_witness :
    (fwBlocked.check "2026-01-01" oracleOk
        { «to» := some "0xbad0000000000000000000000000000000000bad"
          value := some 1000000000000000
          «from» := some "0x742d35cc6634c0532925a3b8d23c5d3ce87cdd4b" }).1.allowed = false ∧
    (fwBlocked.check "2026-01-01" oracleOk
        { «to» := some "0xbad0000000000000000000000000000000000bad"
          value := some 1000000000000000
          «from» := some "0x742d35cc6634c0532925a3b8d23c5d3ce87cdd4b" }).1.reason =
      some (Reason.contractBlocked "0xbad0000000000000000000000000000000000bad") ∧
    (fwBlocked.check "2026-01-01" oracleOk
        { «to» := some "0xbad0000000000000000000000000000000000bad"
          value := some 1000000000000000
          «from» := some "0x742d35cc6634c0532925a3b8d23c5d3ce87cdd4b" }).2.2 = [] := by
  have h := firewall_blocked_short_circuit fwBlocked "2026-01-01" oracleOk
    { «to» := some "0xbad0000000000000000000000000000000000bad"
      value := some 1000000000000000
      «from» := some "0x742d35cc6634c0532925a3b8d23c5d3ce87cdd4b" }
    { allowed := false
      reason := some (Reason.contractBlocked "0xbad0000000000000000000000000000000000bad")
      contractAddress := "0xbad0000000000000000000000000000000000bad"
      status := ContractStatus.blocked }
    (by decide)
  rw [h]
  exact ⟨rfl, rfl, rfl⟩

theorem retryGo_all_fail (msg : Nat → String) :
    ∀ (r i : Nat) (last : Option String), 0 < r →
      retryGo (fun j => (Except.error (msg j) : Except String (Option String))) r i last =
        (Except.error (msg (i + r - 1)), i + r) := by
  intro r
  induction r with
  | zero => intro i last h; omega
  | succ r ih =>
    intro i last _
    simp only [retryGo]
    by_cases hr : 0 < r
    · rw [ih (i + 1) (some (msg i)) hr]
      have h1 : i + 1 + r - 1 = i + (r + 1) - 1 := by omega
      have h2 : i + 1 + r = i + (r + 1) := by omega
      rw [h1, h2]
    · have hr0 : r = 0 := by omega
      subst hr0
      simp only [retryGo, Option.getD_some]
      have h1 : i + 1 - 1 = i := by omega
      rw [h1]

/-- Claim C6 counterexample: with the default budget of 2 attempts, a first
attempt failing with an insufficient-funds error is retried (the trace shows
two `eth_call` invocations), even though the surfaced error is classified as
insufficient funds: the retry loop never inspects the error kind. -/
theorem insufficient_funds_error_is_retried :
    (TransactionSimulator.simulate 2
      { callAttempt := fun _ => Except.error "insufficient funds for transfer"
        estimateGasResult := Except.error "unavailable"
        gasPriceResult := Except.error "unavailable" }
      {}).2 = [RpcCall.ethCall, RpcCall.ethCall] ∧
    (TransactionSimulator.simulate 2
      { callAttempt := fun _ => Except.error "insufficient funds for transfer"
        estimateGasResult := Except.error "unavailable"
        gasPriceResult := Except.error "unavailable" }
      {}).1.error = some SimError.insufficientFunds := by
  constructor <;> decide

/-- Claim C6 (amended): the retry loop is error-agnostic: every failing attempt
(insufficient funds and revert included) is retried until the configured
maximum number of attempts is exhausted, and the last error observed is the one
surfaced; error classification happens only afterwards, on the surfaced
error. -/
theorem retry_is_error_agnostic (m : Nat) (hm : 0 < m) (msg : Nat → String) :
    simulateWithRetry m (fun i => (Except.error (msg i) : Except String (Option String))) =
      (Except.error (msg (m - 1)), m) := by
  unfold simulateWithRetry
  simpa using retryGo_all_fail msg m 0 none hm

/-- Witness for `retry_is_error_agnostic`: two insufficient-funds attempts. -/
theorem retry_is_error_agnostic_witness :
    simulateWithRetry 2 (fun _ => (Except.error "insufficient funds" : Except String (Option String))) =
      (Except.error "insufficient funds", 2) :=
  retry_is_error_agnostic 2 (by decide) (fun _ => "insufficient funds")

theorem jsStartsWith_length_le (d p : String) (h : jsStartsWith d p = true) :
    p.toList.length ≤ d.toList.length := by
  unfold jsStartsWith at h
  exact (List.isPrefixOf_iff_prefix.mp h).length_le

theorem jsStartsWith_truthy (d p : String) (hp : 0 < p.toList.length)
    (h : jsStartsWith d p = true) : truthyStr (some d) = true := by
  have hle := jsStartsWith_length_le d p h
  unfold truthyStr
  simp only [bne_iff_ne, ne_eq, decide_eq_true_eq]
  intro he
  subst he
  have hnil : ("" : String).toList.length = 0 := rfl
  omega

theorem analyze_mem_revert (d : String) (hp : jsStartsWith d "0x08c379a0" = true) :
    Warning.revertReasonInReturnData ∈ analyzeReturnDataForWarnings d := by
  have hle := jsStartsWith_length_le d "0x08c379a0" hp
  have hten : ("0x08c379a0" : String).toList.length = 10 := by decide
  unfold analyzeReturnDataForWarnings
  rw [if_pos (by unfold jsLength; omega), if_pos hp]
  exact List.mem_append_left _ (List.mem_singleton.mpr rfl)

theorem analyze_mem_panic (d : String) (hp : jsStartsWith d "0x4e487b71" = true) :
    Warning.panicInReturnData ∈ analyzeReturnDataForWarnings d := by
  have hle := jsStartsWith_length_le d "0x4e487b71" hp
  have hten : ("0x4e487b71" : String).toList.length = 10 := by decide
  unfold analyzeReturnDataForWarnings
  rw [if_pos (by unfold jsLength; omega), if_pos hp]
  exact List.mem_append_right _ (List.mem_singleton.mpr rfl)

theorem simulate_ok_shape (maxRetries : Nat) (ora : ChainOracle) (tx : TransactionRequest)
    (dataRes : Option String) (n : Nat)
    (h : simulateWithRetry maxRetries ora.callAttempt = (Except.ok dataRes, n)) :
    (TransactionSimulator.simulate maxRetries ora tx).1.success = true ∧
    ∃ rest, (TransactionSimulator.simulate maxRetries ora tx).1.warnings =
      (if truthyStr dataRes then analyzeReturnDataForWarnings (dataRes.getD "") else []) ++ rest := by
  simp only [TransactionSimulator.simulate, h]
  split
  · cases hog : ora.estimateGasResult with
    | ok g => exact ⟨rfl, _, rfl⟩
    | error e => exact ⟨rfl, _, rfl⟩
  · exact ⟨rfl, [], by simp⟩

/-- Claim C7: when the underlying read-only call succeeds, a returned payload
beginning with the revert-reason prefix `0x08c379a0` or the panic prefix
`0x4e487b71` still yields `success = true`; the corresponding advisory warning
is appended and success is never flipped by return-data analysis. -/
theorem simulate_revert_payload_still_success (maxRetries : Nat) (ora : ChainOracle)
    (tx : TransactionRequest) (d : String) (n : Nat)
    (h : simulateWithRetry maxRetries ora.callAttempt = (Except.ok (some d), n)) :
    (TransactionSimulator.simulate maxRetries ora tx).1.success = true ∧
    (jsStartsWith d "0x08c379a0" = true →
      Warning.revertReasonInReturnData ∈
        (TransactionSimulator.simulate maxRetries ora tx).1.warnings) ∧
    (jsStartsWith d "0x4e487b71" = true →
      Warning.panicInReturnData ∈
        (TransactionSimulator.simulate maxRetries ora tx).1.warnings) := by
  obtain ⟨hsucc, rest, hw⟩ := simulate_ok_shape maxRetries ora tx (some d) n h
  refine ⟨hsucc, ?_, ?_⟩
  · intro hp
    rw [hw, if_pos (jsStartsWith_truthy d "0x08c379a0" (by decide) hp)]
    exact List.mem_append_left _ (by simpa using analyze_mem_revert d hp)
  · intro hp
    rw [hw, if_pos (jsStartsWith_truthy d "0x4e487b71" (by decide) hp)]
    exact List.mem_append_left _ (by simpa using analyze_mem_panic d hp)



/-- Witness for `simulate_revert_payload_still_success` at a concrete payload. -/
theorem simulate_revert_payload_still_success_witness :
    (TransactionSimulator.simulate 2 oracleRevertData {}).1.success = true ∧
    Warning.revertReasonInReturnData ∈
      (TransactionSimulator.simulate 2 oracleRevertData {}).1.warnings := by
  have h := simulate_revert_payload_still_success 2 oracleRevertData {} "0x08c379a0aa" 1 rfl
  exact ⟨h.1, h.2.1 (by decide)⟩

theorem estimateSpend_trace_no_ethCall (ora : ChainOracle) (tx : TransactionRequest)
    (payer : String) :
    RpcCall.ethCall ∉ (TransactionSimulator.estimateSpend ora tx payer).2 := by
  unfold TransactionSimulator.estimateSpend
  cases ora.gasPriceResult <;> cases ora.estimateGasResult <;> split_ifs <;> simp

theorem check_perTx_reject (s : SpendingLimits) (today : String) (a : Int)
    (h : a > s.maxPerTx) :
    (s.check today a).1.allowed = false ∧
    (s.check today a).1.reason = some (Reason.perTxExceeded a s.maxPerTx) := by
  simp only [SpendingLimits.check, maybeResetDaily_maxPerTx, maybeResetDaily_maxDaily]
  rw [if_pos h]
  exact ⟨rfl, rfl⟩



/-- Claim C5 counterexample: in the 10 ETH / 1 ETH scenario the 2 ETH transfer
is rejected with a per-transaction reason, but RPC calls ARE observed during
the check: spend estimation issues a gas-price fetch and a gas estimate before
the ledger rejects, so the trace is not empty. -/
theorem perTx_reject_still_issues_rpc :
    (fwCaps.check "2026-01-01" oracleOk txTwoEth).1.allowed = false ∧
    (fwCaps.check "2026-01-01" oracleOk txTwoEth).1.reason =
      some (Reason.perTxExceeded 2000021000000000000 1000000000000000000) ∧
    (fwCaps.check "2026-01-01" oracleOk txTwoEth).2.2 =
      [RpcCall.getGasPrice, RpcCall.estimateGas] := by
  refine ⟨?_, ?_, ?_⟩ <;> decide

/-- Claim C5 (amended): with a payer configured and an estimated spend above the
per-transaction cap, the pipeline rejects with a per-transaction reason before
ever invoking simulation: no simulation (`eth_call`) RPC appears in the trace
and no simulation result is attached, though spend estimation itself issues its
gas-price/gas-estimate queries first. -/
theorem firewall_perTx_reject_before_simulation (fw : TransactionFirewall) (today : String)
    (ora : ChainOracle) (tx : TransactionRequest) (payer : String)
    (hp : fw.payerAddress = some payer)
    (hcontracts : (fw.allowlist.checkAll (TransactionSimulator.extractContractAddresses tx)).find?
      (fun r => !r.allowed) = none)
    (hexceed : (TransactionSimulator.estimateSpend ora tx payer).1.estimatedSpend >
      fw.limits.maxPerTx) :
    (fw.check today ora tx).1.allowed = false ∧
    (fw.check today ora tx).1.reason =
      some (Reason.perTxExceeded
        (TransactionSimulator.estimateSpend ora tx payer).1.estimatedSpend fw.limits.maxPerTx) ∧
    (fw.check today ora tx).1.simulationResult = none ∧
    RpcCall.ethCall ∉ (fw.check today ora tx).2.2 := by
  have hreject := check_perTx_reject fw.limits today
    (TransactionSimulator.estimateSpend ora tx payer).1.estimatedSpend hexceed
  simp only [TransactionFirewall.check, hcontracts, TransactionFirewall.checkRest, hp,
    hreject.1, Bool.not_false, if_pos]
  exact ⟨trivial, hreject.2, trivial, estimateSpend_trace_no_ethCall ora tx payer⟩

/-- Witness for `firewall_perTx_reject_before_simulation` at the concrete
scenario of the spec. -/
theorem firewall_perTx_reject_before_simulation_witness :
    (fwCaps.check "2026-01-01" oracleOk txTwoEth).1.allowed = false ∧
    (fwCaps.check "2026-01-01" oracleOk txTwoEth).1.simulationResult = none ∧
    RpcCall.ethCall ∉ (fwCaps.check "2026-01-01" oracleOk txTwoEth).2.2 := by
  have h := firewall_perTx_reject_before_simulation fwCaps "2026-01-01" oracleOk txTwoEth
    "0x742d35cc6634c0532925a3b8d23c5d3ce87cdd4b" rfl (by decide) (by decide)
  exact ⟨h.1, h.2.2.1, h.2.2.2⟩

/-- Claim C10: no field of `FirewallConfig` can disable system-safe handling:
for every firewall configuration, a destination in the built-in system-safe set
and not in the block set classifies as `system_safe` with `allowed = true`, and
the pipeline's `check` on a transaction to that destination never takes the
classification-rejection branch: it always proceeds to the later stages. -/
theorem system_safe_passes_every_config (config : FirewallConfig) (today : String)
    (ora : ChainOracle) (tx : TransactionRequest) (addr : String)
    (hto : tx.«to» = some addr)
    (hsys : ((TransactionFirewall.ofConfig today config).allowlist.systemContracts).contains
      (jsToLowerCase addr) = true)
    (hblk : ((TransactionFirewall.ofConfig today config).allowlist.blocklist).contains
      (jsToLowerCase addr) = false) :
    (TransactionFirewall.ofConfig today config).allowlist.allowSystemContracts = true ∧
    ((TransactionFirewall.ofConfig today config).allowlist.check addr).status =
      ContractStatus.system_safe ∧
    ((TransactionFirewall.ofConfig today config).allowlist.check addr).allowed = true ∧
    (TransactionFirewall.ofConfig today config).check today ora tx =
      (TransactionFirewall.ofConfig today config).checkRest today ora tx
        ((TransactionFirewall.ofConfig today config).allowlist.checkAll
          (TransactionSimulator.extractContractAddresses tx)) := by
  have hASC : (TransactionFirewall.ofConfig today config).allowlist.allowSystemContracts = true := by
    simp [TransactionFirewall.ofConfig, ContractAllowlist.ofConfig]
  have hcheck : (TransactionFirewall.ofConfig today config).allowlist.check addr =
      { allowed := true, reason := none, contractAddress := addr
        status := ContractStatus.system_safe } := by
    unfold ContractAllowlist.check
    rw [if_neg (by simp_all), if_pos (by simp_all)]
  have hfind : ((TransactionFirewall.ofConfig today config).allowlist.checkAll
      (TransactionSimulator.extractContractAddresses tx)).find? (fun r => !r.allowed) = none := by
    unfold TransactionSimulator.extractContractAddresses
    rw [hto]
    by_cases he : truthyStr (some addr) = true
    · rw [if_pos he]
      simp [ContractAllowlist.checkAll, hcheck]
    · rw [if_neg (by simp_all)]
      simp [ContractAllowlist.checkAll]
  refine ⟨hASC, by rw [hcheck], by rw [hcheck], ?_⟩
  simp only [TransactionFirewall.check, hfind]

/-- Witness for `system_safe_passes_every_config`: WETH on Base passes the
classification stage even in allow-list mode with an empty allow list. -/
theorem system_safe_passes_every_config_witness :
    ((TransactionFirewall.ofConfig "2026-01-01"
      { maxDailySpend := 10000000000000000000
        maxPerTxSpend := 1000000000000000000
        allowedContracts := some [] }).allowlist.check
      "0x4200000000000000000000000000000000000006").status = ContractStatus.system_safe :=
  (system_safe_passes_every_config
    { maxDailySpend := 10000000000000000000
      maxPerTxSpend := 1000000000000000000
      allowedContracts := some [] }
    "2026-01-01" oracleOk
    { «to» := some "0x4200000000000000000000000000000000000006" }
    "0x4200000000000000000000000000000000000006" rfl (by decide) (by decide)).2.1



theorem hexPairs_length (l : List Nat) :
    ((l.map byteToHexChars).flatten).length = 2 * l.length := by
  induction l with
  | nil => rfl
  | cons b rest ih =>
    simp only [List.map_cons, List.flatten_cons, List.length_append, ih, byteToHexChars,
      List.length_cons, List.length_nil, List.length_cons]
    omega

theorem checkCalldata_approval_slices (p1 amt : List Nat)
    (hp1 : p1.length = 32) (hamt : amt.length = 32) :
    TransactionFirewall.checkCalldata (hexOfBytes ([9, 94, 167, 179] ++ p1 ++ amt)) =
      [Warning.suspiciousSelector "approve - check spender address carefully"] ++
      (if String.mk ((amt.map byteToHexChars).flatten) == String.mk (List.replicate 64 'f') then
        [Warning.unlimitedApproval]
      else []) := by
  have hlenP : ((p1.map byteToHexChars).flatten).length = 64 := by
    rw [hexPairs_length]; omega
  have hlenA : ((amt.map byteToHexChars).flatten).length = 64 := by
    rw [hexPairs_length]; omega
  have hchars : (hexOfBytes ([9, 94, 167, 179] ++ p1 ++ amt)).toList =
      (['0', 'x', '0', '9', '5', 'e', 'a', '7', 'b', '3'] ++ (p1.map byteToHexChars).flatten) ++
        (amt.map byteToHexChars).flatten := by
    have hbase : (hexOfBytes ([9, 94, 167, 179] ++ p1 ++ amt)).toList =
        '0' :: 'x' :: ((([9, 94, 167, 179] ++ p1 ++ amt).map byteToHexChars).flatten) := rfl
    rw [hbase]
    simp only [List.map_append, List.flatten_append]
    have hsel : (([9, 94, 167, 179] : List Nat).map byteToHexChars).flatten =
        ['0', '9', '5', 'e', 'a', '7', 'b', '3'] := by decide
    rw [hsel]
    simp [List.append_assoc]
  have hsel10 : jsSlice (hexOfBytes ([9, 94, 167, 179] ++ p1 ++ amt)) 0 10 = "0x095ea7b3" := by
    unfold jsSlice
    rw [hchars, List.append_assoc]
    simp only [List.drop_zero, Nat.sub_zero]
    rw [List.take_left'
      (show (['0', 'x', '0', '9', '5', 'e', 'a', '7', 'b', '3'] : List Char).length = 10 from rfl)]
  have hjslen : jsLength (hexOfBytes ([9, 94, 167, 179] ++ p1 ++ amt)) = 138 := by
    unfold jsLength
    rw [hchars]
    simp [hlenP, hlenA]
  have hslice74 : jsSlice (hexOfBytes ([9, 94, 167, 179] ++ p1 ++ amt)) 74 138 =
      String.mk ((amt.map byteToHexChars).flatten) := by
    unfold jsSlice
    rw [hchars]
    rw [List.drop_left' (by simp [hlenP])]
    have h64 : (138 : Nat) - 74 = 64 := by omega
    rw [h64, ← hlenA, List.take_length]
  have hlow : jsToLowerCase "0x095ea7b3" = "0x095ea7b3" := by decide
  have hlookup : SUSPICIOUS_SELECTORS.lookup "0x095ea7b3" =
      some "approve - check spender address carefully" := by decide
  unfold TransactionFirewall.checkCalldata
  rw [hsel10, hslice74, hjslen]
  simp only [hlow, hlookup]
  simp

/-- Claim C8: an approval calldata (selector `0x095ea7b3`) whose second 32-byte
parameter slot is entirely `0xff` bytes receives the distinct unlimited-approval
warning from the calldata scan; the same calldata with an all-zero amount slot
does not. -/
theorem unlimited_approval_warning (p1 amt : List Nat) (hp1 : p1.length = 32) :
    (amt = List.replicate 32 255 →
      Warning.unlimitedApproval ∈
        TransactionFirewall.checkCalldata (hexOfBytes ([9, 94, 167, 179] ++ p1 ++ amt))) ∧
    (amt = List.replicate 32 0 →
      Warning.unlimitedApproval ∉
        TransactionFirewall.checkCalldata (hexOfBytes ([9, 94, 167, 179] ++ p1 ++ amt))) := by
  constructor
  · intro hamt
    subst hamt
    rw [checkCalldata_approval_slices p1 _ hp1 (by decide)]
    have hff : (((List.replicate 32 255).map byteToHexChars).flatten) =
        List.replicate 64 'f' := by decide
    rw [hff]
    simp
  · intro hamt
    subst hamt
    rw [checkCalldata_approval_slices p1 _ hp1 (by decide)]
    have hzz : (((List.replicate 32 0).map byteToHexChars).flatten) =
        List.replicate 64 '0' := by decide
    rw [hzz]
    simp

/-- Witness for `unlimited_approval_warning` at a concrete spender slot. -/
theorem unlimited_approval_warning_witness :
    Warning.unlimitedApproval ∈
      TransactionFirewall.checkCalldata
        (hexOfBytes ([9, 94, 167, 179] ++ List.replicate 32 0 ++ List.replicate 32 255)) :=
  (unlimited_approval_warning (List.replicate 32 0) (List.replicate 32 255) (by decide)).1 rfl

end AgentGuard
